import Mathlib

/-!
Verification of the Pontem move-call encoding layer
(src/pallets/sp-mvm/rpc/src/lib.rs and the spec of its fn_call helpers).

The fn_call module (parse_function_string, make_function_call, make_abi) is
declared in lib.rs but its source file is not part of the repository snapshot;
those components are modelled from the spec (sections 3, 4.1, 4.3, 4.4), as
marked on each definition.  The RPC method bodies of encode_submission and
get_module_abis are embedded directly from lib.rs, with their external
collaborators (runtime API, UTF-8 decoding, fn_call) passed as parameters.
-/

namespace PontemMvm

/-! ## Byte-level helpers: ULEB128 prefixes and little-endian fixed-width ints -/

/-- One step of ULEB128 encoding.  The first argument is fuel; since the value
is divided by 128 at every step, fuel equal to the initial value always
suffices, so the fuel-exhausted branch is unreachable for the wrapper below. -/
def uleb128Aux : Nat → Nat → List Nat
  | 0, n => [n % 128]
  | fuel + 1, n => if n < 128 then [n] else (n % 128 + 128) :: uleb128Aux fuel (n / 128)

/-- The module format's native variable-length unsigned-integer encoding
(ULEB128), used for all count and length prefixes. -/
def uleb128 (n : Nat) : List Nat := uleb128Aux n n

/-- Fixed-width little-endian byte serialization of an unsigned integer,
the module's native fixed-width rule for u8/u64/u128 values. -/
def leBytes : Nat → Nat → List Nat
  | 0, _ => []
  | w + 1, n => n % 256 :: leBytes w (n / 256)

/-- Decoding of a little-endian fixed-width byte string back to an integer. -/
def leDecode : List Nat → Nat
  | [] => 0
  | b :: bs => b + 256 * leDecode bs

/-- Byte form of an identifier string (identifiers are ASCII, where UTF-8
agrees with the code-point bytes). -/
def strBytes (s : String) : List Nat := s.data.map Char.toNat

/-- Length-prefixed byte string: ULEB128 length followed by the bytes. -/
def withLen (bs : List Nat) : List Nat := uleb128 bs.length ++ bs

/-! ## Hex and decimal literal parsing -/

/-- Value of one case-insensitive hex digit. -/
def hexVal (c : Char) : Option Nat :=
  if c.isDigit then some (c.toNat - 48)
  else if 'a' ≤ c ∧ c ≤ 'f' then some (c.toNat - 87)
  else if 'A' ≤ c ∧ c ≤ 'F' then some (c.toNat - 55)
  else none

/-- Accumulator pass over decimal digits; fails on a non-digit. -/
def parseDecAux : List Char → Nat → Option Nat
  | [], acc => some acc
  | c :: cs, acc => if c.isDigit then parseDecAux cs (acc * 10 + (c.toNat - 48)) else none

/-- Parse a non-empty all-decimal character list. -/
def parseDecNat (cs : List Char) : Option Nat :=
  match cs with
  | [] => none
  | _ => parseDecAux cs 0

/-- Accumulator pass over hex digits; fails on a non-hex character. -/
def parseHexAux : List Char → Nat → Option Nat
  | [], acc => some acc
  | c :: cs, acc =>
    match hexVal c with
    | some v => parseHexAux cs (acc * 16 + v)
    | none => none

/-- Parse a non-empty all-hex character list. -/
def parseHexNat (cs : List Char) : Option Nat :=
  match cs with
  | [] => none
  | _ => parseHexAux cs 0

/-- Numeric literal: decimal, or hex with a 0x marker. -/
def parseNumChars : List Char → Option Nat
  | '0' :: 'x' :: rest => parseHexNat rest
  | cs => parseDecNat cs

/-! ## Account addresses -/

/-- Drop an optional leading 0x marker. -/
def stripHexMark : List Char → List Char
  | '0' :: 'x' :: rest => rest
  | cs => cs

/-- Hex characters to nibble values; fails on any non-hex character. -/
def hexToNibbles : List Char → Option (List Nat)
  | [] => some []
  | c :: cs =>
    match hexVal c, hexToNibbles cs with
    | some v, some vs => some (v :: vs)
    | _, _ => none

/-- Pair up nibbles into bytes (input is padded to even length upstream). -/
def nibblesToBytes : List Nat → List Nat
  | [] => []
  | [x] => [x]
  | a :: b :: rest => (16 * a + b) :: nibblesToBytes rest

/-- Modelled from the spec: address-literal normalization (sections 4.1, 4.3).
A fixed-length 32-byte account address parsed from a hex literal with optional
0x marker; short forms are zero-padded on the left to the canonical 64-nibble
length; wrong length or non-hex characters fail. -/
def parseAddressChars (cs : List Char) : Option (List Nat) :=
  let ds := stripHexMark cs
  if ds.length = 0 ∨ 64 < ds.length then none
  else
    match hexToNibbles ds with
    | none => none
    | some ns => some (nibblesToBytes (List.replicate (64 - ds.length) 0 ++ ns))

/-! ## Data model (spec section 3) -/

/-- A structural type descriptor, used in ABI declarations and call payloads. -/
inductive TypeTag where
  | bool
  | u8
  | u64
  | u128
  | address
  | signer
  | vector (t : TypeTag)
  | struct (addr : List Nat) (module : String) (name : String) (typeArgs : List TypeTag)

/-- One of the four Move abilities, for generic-parameter constraints. -/
inductive Ability where
  | copy
  | drop
  | store
  | key

/-- The structured description of one declared function, derived from
bytecode. -/
structure FunctionAbi where
  name : String
  is_entry : Bool
  generic_arity : Nat
  generic_constraints : List (List Ability)
  parameters : List TypeTag
  returns : List TypeTag

/-- A module identifier: account address plus module name. -/
structure ModuleId where
  address : List Nat
  name : String

/-- The ABI of one deployed module. -/
structure ModuleAbi where
  module_id : ModuleId
  functions : List FunctionAbi

/-- The parsed form of a canonical function descriptor. -/
structure FunctionReference where
  module_address : List Nat
  module_name : String
  function_name : String

/-- Reference Parser failures (spec section 4.1). -/
inductive ParseError where
  | Malformed
  | InvalidAddress
  | InconsistentModuleName
deriving DecidableEq

/-- ABI Extractor failures (spec section 4.2). -/
inductive AbiError where
  | Malformed
deriving DecidableEq

/-- Argument Codec failures (spec section 4.3). -/
inductive CodecError where
  | ArityMismatch
  | GenericArityMismatch
  | InvalidBool
  | InvalidNumber
  | OutOfRange
  | InvalidAddress
  | InvalidVector
  | InvalidTypeTag
  | UnsupportedType
deriving DecidableEq

/-- Call Encoder failures (spec section 4.4). -/
inductive EncodingError where
  | NotCallable
deriving DecidableEq

/-- The combined error taxonomy of the core flow (spec section 7). -/
inductive MvError where
  | parse (e : ParseError)
  | abi (e : AbiError)
  | codec (e : CodecError)
  | encoding (e : EncodingError)
deriving DecidableEq

/-! ## Reference Parser (spec section 4.1) -/

/-- Split a character list on every occurrence of two consecutive colons. -/
def splitDoubleColon : List Char → List (List Char)
  | [] => [[]]
  | ':' :: ':' :: rest => [] :: splitDoubleColon rest
  | c :: rest =>
    match splitDoubleColon rest with
    | [] => [[c]]
    | p :: ps => (c :: p) :: ps

/-- Modelled from the spec: fn_call::parse_function_string (declared in
lib.rs but absent from the snapshot).  Splits the descriptor on double colons
into exactly three non-empty components, parses the first as a fixed-length
hex address, and cross-checks the secondary context string against the
module-name component. -/
def parseFunctionRef (descriptor ctx : String) : Except ParseError FunctionReference :=
  match splitDoubleColon descriptor.data with
  | [a, m, f] =>
    if a = [] ∨ m = [] ∨ f = [] then Except.error ParseError.Malformed
    else
      match parseAddressChars a with
      | none => Except.error ParseError.InvalidAddress
      | some addr =>
        if m = ctx.data then Except.ok ⟨addr, String.mk m, String.mk f⟩
        else Except.error ParseError.InconsistentModuleName
  | _ => Except.error ParseError.Malformed

/-! ## Argument Codec (spec section 4.3) -/

/-- Case-insensitive comparison support for bool literals. -/
def toLowerAll (cs : List Char) : List Char := cs.map Char.toLower

/-- Modelled from the spec: fixed-width unsigned-integer coercion.  The
literal is decimal or hex with a 0x marker; a value outside the width's range
fails OutOfRange; non-numeric text fails InvalidNumber. -/
def coerceUInt (width : Nat) (lit : List Char) : Except CodecError (List Nat) :=
  match parseNumChars lit with
  | none => Except.error CodecError.InvalidNumber
  | some n => if n < 256 ^ width then Except.ok (leBytes width n) else Except.error CodecError.OutOfRange

/-- Modelled from the spec: per-value coercion of one primitive literal
against its declared type tag (fn_call is absent from the snapshot).
Struct and signer values are not encodable from a flat literal; a vector tag
reaching this primitive-element path is likewise unsupported, matching the
restriction to primitive and vector-of-primitive literals. -/
def coercePrim : TypeTag → List Char → Except CodecError (List Nat)
  | TypeTag.bool, lit =>
    if toLowerAll lit = ['t', 'r', 'u', 'e'] then Except.ok [1]
    else if toLowerAll lit = ['f', 'a', 'l', 's', 'e'] then Except.ok [0]
    else Except.error CodecError.InvalidBool
  | TypeTag.u8, lit => coerceUInt 1 lit
  | TypeTag.u64, lit => coerceUInt 8 lit
  | TypeTag.u128, lit => coerceUInt 16 lit
  | TypeTag.address, lit =>
    match parseAddressChars lit with
    | some bs => Except.ok bs
    | none => Except.error CodecError.InvalidAddress
  | TypeTag.signer, _ => Except.error CodecError.UnsupportedType
  | TypeTag.vector _, _ => Except.error CodecError.UnsupportedType
  | TypeTag.struct _ _ _ _, _ => Except.error CodecError.UnsupportedType

/-- Coerce a list of element literals against one element type. -/
def coercePrimList (t : TypeTag) : List (List Char) → Except CodecError (List (List Nat))
  | [] => Except.ok []
  | e :: es =>
    match coercePrim t e, coercePrimList t es with
    | Except.ok b, Except.ok bs => Except.ok (b :: bs)
    | Except.error err, _ => Except.error err
    | _, Except.error err => Except.error err

/-- Split a character list on every comma, for vector-element literals. -/
def splitCommas : List Char → List (List Char)
  | [] => [[]]
  | ',' :: rest => [] :: splitCommas rest
  | c :: rest =>
    match splitCommas rest with
    | [] => [[c]]
    | p :: ps => (c :: p) :: ps

/-- Modelled from the spec: coercion of one value literal against its
declared type tag.  A vector literal is bracket-enclosed and comma-separated,
each element coerced against the element type; the empty-vector literal is
valid and encodes as a zero-length sequence. -/
def coerceValue : TypeTag → List Char → Except CodecError (List Nat)
  | TypeTag.vector t, lit =>
    match lit with
    | '[' :: rest =>
      if rest.getLast? = some ']' then
        if rest.dropLast = [] then Except.ok (uleb128 0)
        else
          match coercePrimList t (splitCommas rest.dropLast) with
          | Except.ok bss => Except.ok (uleb128 bss.length ++ bss.flatten)
          | Except.error err => Except.error err
      else Except.error CodecError.InvalidVector
    | _ => Except.error CodecError.InvalidVector
  | t, lit => coercePrim t lit

/-- Modelled from the spec: coercion of the ordered value literals against
the declared parameter types, one encoded argument per input, in input order;
any single failure aborts the whole list. -/
def coerceArgs : List TypeTag → List String → Except CodecError (List (List Nat))
  | [], [] => Except.ok []
  | t :: ts, l :: ls =>
    match coerceValue t l.data, coerceArgs ts ls with
    | Except.ok b, Except.ok bs => Except.ok (b :: bs)
    | Except.error err, _ => Except.error err
    | _, Except.error err => Except.error err
  | _, _ => Except.error CodecError.ArityMismatch

/-- Modelled from the spec: parsing a type-parameter literal into a TypeTag
with the primitive/vector grammar plus struct designators (which carry no
nested type arguments in flat literals).  The first argument is fuel; the
vector case strips eight characters per step, so the literal's length
suffices as initial fuel. -/
def parseTypeTagAux : Nat → List Char → Option TypeTag
  | 0, _ => none
  | fuel + 1, cs =>
    if cs = ['b', 'o', 'o', 'l'] then some TypeTag.bool
    else if cs = ['u', '8'] then some TypeTag.u8
    else if cs = ['u', '6', '4'] then some TypeTag.u64
    else if cs = ['u', '1', '2', '8'] then some TypeTag.u128
    else if cs = ['a', 'd', 'd', 'r', 'e', 's', 's'] then some TypeTag.address
    else if cs = ['s', 'i', 'g', 'n', 'e', 'r'] then some TypeTag.signer
    else if cs.take 7 = ['v', 'e', 'c', 't', 'o', 'r', '<'] ∧ cs.getLast? = some '>' then
      match parseTypeTagAux fuel ((cs.drop 7).dropLast) with
      | some t => some (TypeTag.vector t)
      | none => none
    else
      match splitDoubleColon cs with
      | [a, m, n] =>
        if a ≠ [] ∧ m ≠ [] ∧ n ≠ [] then
          match parseAddressChars a with
          | some ad => some (TypeTag.struct ad (String.mk m) (String.mk n) [])
          | none => none
        else none
      | _ => none

/-- Type-parameter literal grammar entry point. -/
def parseTypeTag (cs : List Char) : Option TypeTag := parseTypeTagAux cs.length cs

/-- Wire-tag serialization of a type tag, using the format's discriminant
bytes (bool 0, u8 1, u64 2, u128 3, address 4, signer 5, vector 6, struct 7). -/
def serializeTypeTag : TypeTag → List Nat
  | TypeTag.bool => [0]
  | TypeTag.u8 => [1]
  | TypeTag.u64 => [2]
  | TypeTag.u128 => [3]
  | TypeTag.address => [4]
  | TypeTag.signer => [5]
  | TypeTag.vector t => 6 :: serializeTypeTag t
  | TypeTag.struct ad m n ts =>
    7 :: (ad ++ withLen (strBytes m) ++ withLen (strBytes n) ++ uleb128 ts.length
      ++ (ts.attach.map (fun tt => serializeTypeTag tt.val)).flatten)
decreasing_by
  all_goals simp_wf
  all_goals first
  | omega
  | (have h := List.sizeOf_lt_of_mem tt.property
     omega)

/-- Modelled from the spec: parse and serialize the ordered type-parameter
literals; any single failure aborts the whole list. -/
def encodeTypeArgs : List String → Except CodecError (List (List Nat))
  | [] => Except.ok []
  | l :: ls =>
    match parseTypeTag l.data with
    | none => Except.error CodecError.InvalidTypeTag
    | some t =>
      match encodeTypeArgs ls with
      | Except.ok rest => Except.ok (serializeTypeTag t :: rest)
      | Except.error err => Except.error err

/-! ## Call Encoder (spec section 4.4) -/

/-- Modelled from the spec: concatenate, in fixed order, the address bytes,
the length-prefixed module name, the length-prefixed function name, a count
prefix followed by the type-tag byte strings, and a count prefix followed by
the argument byte strings, all prefixes in ULEB128. -/
def encodeCall (module_address : List Nat) (module_name function_name : String)
    (tyBss argBss : List (List Nat)) : List Nat :=
  module_address ++ withLen (strBytes module_name) ++ withLen (strBytes function_name)
    ++ uleb128 tyBss.length ++ tyBss.flatten
    ++ uleb128 argBss.length ++ argBss.flatten

/-- Modelled from the spec: fn_call::make_function_call (declared in lib.rs
but absent from the snapshot).  Arity checks run before any per-item
coercion; the Call Encoder then requires the entry flag and concatenates the
payload. -/
def makeFunctionCall (abi : FunctionAbi) (module_address : List Nat)
    (module_name function_name : String)
    (tyLits argLits : List String) : Except MvError (List Nat) :=
  if argLits.length ≠ abi.parameters.length then Except.error (MvError.codec CodecError.ArityMismatch)
  else if tyLits.length ≠ abi.generic_arity then Except.error (MvError.codec CodecError.GenericArityMismatch)
  else
    match coerceArgs abi.parameters argLits with
    | Except.error e => Except.error (MvError.codec e)
    | Except.ok argBss =>
      match encodeTypeArgs tyLits with
      | Except.error e => Except.error (MvError.codec e)
      | Except.ok tyBss =>
        if abi.is_entry then Except.ok (encodeCall module_address module_name function_name tyBss argBss)
        else Except.error (MvError.encoding EncodingError.NotCallable)

/-- Modelled from the spec: the end-to-end core flow for one request, given
the ABI already extracted from the fetched module bytes: parse the reference,
then validate, coerce and encode. -/
def encodeCore (descriptor ctx : String) (abi : FunctionAbi)
    (tyLits argLits : List String) : Except MvError (List Nat) :=
  match parseFunctionRef descriptor ctx with
  | Except.error e => Except.error (MvError.parse e)
  | Except.ok r => makeFunctionCall abi r.module_address r.module_name r.function_name tyLits argLits

/-! ## The RPC method bodies of src/pallets/sp-mvm/rpc/src/lib.rs -/

/-- Result of one runtime-API call, as seen by the RPC layer: an outer API
transport error, an inner method error carried as bytes, or a value that may
be absent. -/
inductive ApiResult (α : Type) where
  | apiErr (msg : String)
  | methodErr (bytes : List Nat)
  | ok (val : Option α)

/-- Observable outcome of one RPC method body: a process abort from an
unwrap or out-of-bounds index, an RPC error result, or a successful result
whose value may be absent. -/
inductive RpcOutcome (α : Type) where
  | panicked
  | rpcErr (code : Nat) (message : String)
  | ok (val : Option α)

/-- Decode every byte string of a list, failing if any single one fails;
models the map of String::from_utf8(..).unwrap() over a Vec of byte strings,
where the failure stands for the unwrap panic. -/
def decodeAll (dec : List Nat → Option String) : List (List Nat) → Option (List String)
  | [] => some []
  | b :: bs =>
    match dec b, decodeAll dec bs with
    | some s, some ss => some (s :: ss)
    | _, _ => none

/-- The ASCII fragment of UTF-8 decoding, on which String::from_utf8 agrees
with the code-point bytes; any byte outside ASCII is rejected.  Used to
instantiate the decoder parameter on concrete ASCII or clearly invalid
inputs. -/
def utf8Ascii (bs : List Nat) : Option String :=
  if bs.all (fun b => b < 128) then some (String.mk (bs.map Char.ofNat)) else none

/-- Modelled from the spec: the signature of fn_call::parse_function_string
as used at its lib.rs call site, wrapping the Reference Parser; the first
result component is the encoded module id handed to get_module, the second
the module address. -/
def parseFnModel (descriptor ctx : String) : Option (Option (List Nat) × List Nat) :=
  match parseFunctionRef descriptor ctx with
  | Except.error _ => none
  | Except.ok r => some (some (r.module_address ++ strBytes r.module_name), r.module_address)

/-- Shallow embedding of MVMApi::encode_submission
(src/pallets/sp-mvm/rpc/src/lib.rs, lines 291 to 344).  Collaborators are
parameters: dec models String::from_utf8, parseFn models
fn_call::parse_function_string (a None result stands for Err), getModule the
runtime get_module call, makeCall fn_call::make_function_call (a None result
stands for Err).  RpcOutcome.panicked marks each unwrap or out-of-bounds
index of the original body, in the original evaluation order; the final
map_err(..).ok() on the makeCall result discards the error and yields a
successful absent value. -/
def encodeSubmissionRpc
    (dec : List Nat → Option String)
    (parseFn : String → String → Option (Option (List Nat) × List Nat))
    (getModule : List Nat → ApiResult (List Nat))
    (makeCall : List Nat → List Nat → String → String → List String → List String → Option (List Nat))
    (function arguments type_parameters : List (List Nat)) : RpcOutcome (List Nat) :=
  match decodeAll dec function with
  | none => RpcOutcome.panicked
  | some ff =>
    match ff with
    | f0 :: f1 :: rest =>
      match parseFn f0 f1 with
      | none => RpcOutcome.panicked
      | some (module_id, module_address) =>
        match rest with
        | [] => RpcOutcome.panicked
        | f2 :: _ =>
          match module_id with
          | none => RpcOutcome.panicked
          | some mid =>
            match getModule mid with
            | ApiResult.apiErr _ => RpcOutcome.rpcErr 500 ("API error.")
            | ApiResult.methodErr _ => RpcOutcome.rpcErr 500 ("Nope, error.")
            | ApiResult.ok none => RpcOutcome.panicked
            | ApiResult.ok (some modBytes) =>
              match decodeAll dec type_parameters with
              | none => RpcOutcome.panicked
              | some tps =>
                match decodeAll dec arguments with
                | none => RpcOutcome.panicked
                | some args =>
                  match makeCall modBytes module_address f1 f2 tps args with
                  | none => RpcOutcome.ok none
                  | some payload => RpcOutcome.ok (some payload)
    | _ => RpcOutcome.panicked

/-- Shallow embedding of MVMApi::get_module_abis
(src/pallets/sp-mvm/rpc/src/lib.rs, lines 346 to 385).  Collaborators are
parameters: getModule the runtime get_module call, makeAbi models
fn_call::make_abi (a None result stands for Err), toJson models
serde_json::to_vec.  The two unwraps of the original body map to
RpcOutcome.panicked: the unwrap of the absent module value, and the unwrap
of the absent ABI after make_abi's error was discarded by ok(). -/
def getModuleAbisRpc {α : Type}
    (getModule : List Nat → ApiResult (List Nat))
    (makeAbi : List Nat → Option α)
    (toJson : α → Option (List Nat))
    (module_id : List Nat) : RpcOutcome (List Nat) :=
  match getModule module_id with
  | ApiResult.apiErr _ => RpcOutcome.rpcErr 500 ("abi API error.")
  | ApiResult.methodErr _ => RpcOutcome.rpcErr 500 ("abi Nope, error.")
  | ApiResult.ok none => RpcOutcome.panicked
  | ApiResult.ok (some bytes) =>
    match makeAbi bytes with
    | none => RpcOutcome.panicked
    | some a =>
      match toJson a with
      | none => RpcOutcome.ok none
      | some js => RpcOutcome.ok (some js)

/-! ## Concrete inputs used in scenario theorems and witnesses -/

/-- The canonical 32-byte form of address 0x1. -/
def addrOne : List Nat := List.replicate 31 0 ++ [1]

/-- The canonical 32-byte form of address 0x2. -/
def addrTwo : List Nat := List.replicate 31 0 ++ [2]

/-- The scenario descriptor string. -/
def descCoin : String := "0x1::Coin::transfer"

/-- The scenario context string. -/
def ctxCoin : String := "Coin"

/-- A context string differing from the descriptor's module component. -/
def ctxDog : String := "Dog"

/-- The scenario function name. -/
def fnTransfer : String := "transfer"

/-- The descriptor's address component as characters. -/
def aChars : List Char := ['0', 'x', '1']

/-- The descriptor's module component as characters. -/
def mChars : List Char := ['C', 'o', 'i', 'n']

/-- The descriptor's function component as characters. -/
def fChars : List Char := ['t', 'r', 'a', 'n', 's', 'f', 'e', 'r']

/-- The scenario address-argument literal. -/
def litAddrTwo : String := "0x2"

/-- The scenario integer-argument literal. -/
def litHundred : String := "100"

/-- The round-trip integer literal. -/
def litFortyTwo : String := "42"

/-- A small integer literal for the entry-flag witness. -/
def litSeven : String := "7"

/-- A descriptor the Reference Parser rejects as malformed. -/
def litOops : String := "oops"

/-- The scenario ABI: parameters address and u64, no generics, entry. -/
def abiCoinTransfer : FunctionAbi :=
  ⟨fnTransfer, true, 0, [], [TypeTag.address, TypeTag.u64], []⟩

/-- The same signature with the entry flag cleared, one u64 parameter. -/
def abiNotEntry : FunctionAbi :=
  ⟨fnTransfer, false, 0, [], [TypeTag.u64], []⟩

/-- Decidable equality for Except results, for concrete evaluation. -/
instance exceptDecEq {ε α : Type} [DecidableEq ε] [DecidableEq α] :
    DecidableEq (Except ε α) := fun x y =>
  match x, y with
  | Except.ok a, Except.ok b =>
    if h : a = b then isTrue (by rw [h]) else isFalse (by intro hh; cases hh; exact h rfl)
  | Except.error a, Except.error b =>
    if h : a = b then isTrue (by rw [h]) else isFalse (by intro hh; cases hh; exact h rfl)
  | Except.ok _, Except.error _ => isFalse (by intro hh; cases hh)
  | Except.error _, Except.ok _ => isFalse (by intro hh; cases hh)

/-! ## Claim theorems -/

/-- Claim C1: for the reference 0x1::Coin::transfer with context Coin, value
literals 0x2 and 100, and an ABI declaring parameters address and u64 with
zero generic parameters and the entry flag set, the Call Encoder returns
exactly the concatenation, in fixed order, of the address bytes, the
length-prefixed module name, the length-prefixed function name, a ULEB128
count prefix of 0 for type arguments, a ULEB128 count prefix of 2 for value
arguments, the encoded address 0x2, and the encoded integer 100. -/
theorem call_encoder_scenario :
    encodeCore descCoin ctxCoin abiCoinTransfer [] [litAddrTwo, litHundred] =
      Except.ok (addrOne ++ withLen (strBytes ctxCoin) ++ withLen (strBytes fnTransfer)
        ++ uleb128 0 ++ uleb128 2 ++ addrTwo ++ leBytes 8 100) := by decide

/-- Claim C8: encoding the literal 42 against a u64-typed parameter and then
decoding the resulting bytes per the module's native fixed-width
unsigned-integer rule yields the integer 42. -/
theorem u64_literal_roundtrip :
    coerceValue TypeTag.u64 litFortyTwo.data = Except.ok (leBytes 8 42) ∧
    leDecode (leBytes 8 42) = 42 :=
  ⟨rfl, rfl⟩

/-- Claim C2: for every FunctionAbi, a value-literal list whose length
differs from the number of declared parameters fails with ArityMismatch
before any per-item coercion, producing no payload; and with the value arity
satisfied, a type-parameter literal count differing from the generic arity
fails with GenericArityMismatch. -/
theorem arity_checks (abi : FunctionAbi) (maddr : List Nat) (mn fn : String)
    (tyLits argLits : List String) :
    (argLits.length ≠ abi.parameters.length →
      makeFunctionCall abi maddr mn fn tyLits argLits =
        Except.error (MvError.codec CodecError.ArityMismatch)) ∧
    (argLits.length = abi.parameters.length → tyLits.length ≠ abi.generic_arity →
      makeFunctionCall abi maddr mn fn tyLits argLits =
        Except.error (MvError.codec CodecError.GenericArityMismatch)) := by
  constructor
  · intro h
    unfold makeFunctionCall
    rw [if_pos h]
  · intro h1 h2
    unfold makeFunctionCall
    rw [if_neg (not_not_intro h1), if_pos h2]

/-- Witness for arity_checks: one literal against the two-parameter scenario
ABI fails with ArityMismatch, and a spurious type parameter against its zero
generic arity fails with GenericArityMismatch. -/
theorem arity_checks_case :
    makeFunctionCall abiCoinTransfer addrOne ctxCoin fnTransfer [] [litAddrTwo] =
      Except.error (MvError.codec CodecError.ArityMismatch) ∧
    makeFunctionCall abiCoinTransfer addrOne ctxCoin fnTransfer [litAddrTwo] [litAddrTwo, litHundred] =
      Except.error (MvError.codec CodecError.GenericArityMismatch) :=
  ⟨(arity_checks abiCoinTransfer addrOne ctxCoin fnTransfer [] [litAddrTwo]).1 (by decide),
   (arity_checks abiCoinTransfer addrOne ctxCoin fnTransfer [litAddrTwo] [litAddrTwo, litHundred]).2
     (by decide) (by decide)⟩

/-- Claim C5: every descriptor splitting on double colons into exactly three
non-empty components whose first component is a valid hex address parses
successfully, reproducing the address, module name and function name
exactly; any descriptor with a different component count or an empty
component fails with Malformed. -/
theorem reference_parser_roundtrip (s ctx : String) :
    (∀ a m f addr, splitDoubleColon s.data = [a, m, f] →
      a ≠ [] → m ≠ [] → f ≠ [] →
      parseAddressChars a = some addr → ctx.data = m →
      parseFunctionRef s ctx = Except.ok ⟨addr, String.mk m, String.mk f⟩) ∧
    (∀ ps, splitDoubleColon s.data = ps → (ps.length ≠ 3 ∨ [] ∈ ps) →
      parseFunctionRef s ctx = Except.error ParseError.Malformed) := by
  constructor
  · intro a m f addr hsplit ha hm hf haddr hctx
    unfold parseFunctionRef
    rw [hsplit]
    simp [ha, hm, hf, haddr, hctx]
  · intro ps hsplit hbad
    unfold parseFunctionRef
    rw [hsplit]
    rcases ps with _ | ⟨a, _ | ⟨m, _ | ⟨f, _ | ⟨x, rest⟩⟩⟩⟩
    · rfl
    · rfl
    · rfl
    · rcases hbad with h3 | hmem
      · simp at h3
      · simp only [List.mem_cons, List.not_mem_nil, or_false] at hmem
        rcases hmem with h | h | h
        all_goals simp [h.symm]
    · rfl

/-- Witness for reference_parser_roundtrip: the scenario descriptor with the
matching context parses to address 0x1, module Coin, function transfer. -/
theorem reference_parser_roundtrip_case :
    parseFunctionRef descCoin ctxCoin =
      Except.ok ⟨addrOne, String.mk mChars, String.mk fChars⟩ :=
  (reference_parser_roundtrip descCoin ctxCoin).1 aChars mChars fChars addrOne
    (by decide) (by decide) (by decide) (by decide) (by decide) (by decide)

/-- Claim C6: whenever the secondary context string differs from the
module-name component parsed from the descriptor, the Reference Parser fails
with InconsistentModuleName rather than silently trusting either field. -/
theorem context_cross_check (s ctx : String) (a m f : List Char) (addr : List Nat)
    (hsplit : splitDoubleColon s.data = [a, m, f])
    (ha : a ≠ []) (hm : m ≠ []) (hf : f ≠ [])
    (haddr : parseAddressChars a = some addr)
    (hctx : ctx.data ≠ m) :
    parseFunctionRef s ctx = Except.error ParseError.InconsistentModuleName := by
  unfold parseFunctionRef
  rw [hsplit]
  have hmc : ¬m = ctx.data := fun h => hctx (Eq.symm h)
  simp [ha, hm, hf, haddr, hmc]

/-- Witness for context_cross_check: the scenario descriptor with the
non-matching context Dog fails with InconsistentModuleName. -/
theorem context_cross_check_case :
    parseFunctionRef descCoin ctxDog = Except.error ParseError.InconsistentModuleName :=
  context_cross_check descCoin ctxDog aChars mChars fChars addrOne
    (by decide) (by decide) (by decide) (by decide) (by decide) (by decide)

/-- Claim C7: for every target function whose ABI has the entry flag
cleared, the flow fails with NotCallable and produces no payload, even when
the supplied arguments and type parameters all coerce and encode
successfully. -/
theorem entry_flag_required (abi : FunctionAbi) (maddr : List Nat) (mn fn : String)
    (tyLits argLits : List String) (argBss tyBss : List (List Nat))
    (hlen : argLits.length = abi.parameters.length)
    (hty : tyLits.length = abi.generic_arity)
    (hco : coerceArgs abi.parameters argLits = Except.ok argBss)
    (hte : encodeTypeArgs tyLits = Except.ok tyBss)
    (hentry : abi.is_entry = false) :
    makeFunctionCall abi maddr mn fn tyLits argLits =
      Except.error (MvError.encoding EncodingError.NotCallable) := by
  unfold makeFunctionCall
  rw [if_neg (not_not_intro hlen), if_neg (not_not_intro hty), hco, hte, hentry]
  simp

/-- Witness for entry_flag_required: a u64 argument that coerces
successfully still fails with NotCallable against the non-entry ABI. -/
theorem entry_flag_required_case :
    makeFunctionCall abiNotEntry addrOne ctxCoin fnTransfer [] [litSeven] =
      Except.error (MvError.encoding EncodingError.NotCallable) :=
  entry_flag_required abiNotEntry addrOne ctxCoin fnTransfer [] [litSeven]
    [leBytes 8 7] [] (by decide) (by decide) (by decide) (by decide) (by decide)

/-- Claim C3 is refuted by the code: on a well-formed request whose module
the runtime does not have (get_module returns an absent value),
encode_submission unwraps the absent value and aborts the process instead of
returning an explicit error result, for every behavior of the remaining
collaborators and every argument list. -/
theorem missing_module_aborts :
    ∀ (makeCall : List Nat → List Nat → String → String → List String → List String → Option (List Nat))
      (arguments type_parameters : List (List Nat)),
      encodeSubmissionRpc utf8Ascii parseFnModel (fun _ => ApiResult.ok none) makeCall
        [strBytes descCoin, strBytes ctxCoin, strBytes fnTransfer]
        arguments type_parameters = RpcOutcome.panicked :=
  fun _ _ _ => rfl

/-- Claim C4 is refuted by the code: when make_function_call fails on a
request whose module was found, encode_submission maps the failure to an
RpcError and then discards it with ok(), returning a successful absent
result instead of surfacing the error, for every module byte string. -/
theorem dropped_error_yields_ok_none :
    ∀ modBytes : List Nat,
      encodeSubmissionRpc utf8Ascii parseFnModel (fun _ => ApiResult.ok (some modBytes))
        (fun _ _ _ _ _ _ => none)
        [strBytes descCoin, strBytes ctxCoin, strBytes fnTransfer]
        [strBytes litAddrTwo, strBytes litHundred] [] = RpcOutcome.ok none :=
  fun _ => rfl

/-- Claim C9: encode_submission aborts the process instead of returning an
RPC error result on a function list with fewer than three elements, on an
element whose bytes are not valid UTF-8, and on a descriptor the parser
rejects, for every behavior of the collaborators not reached before the
abort. -/
theorem encode_submission_panics :
    (∀ (parseFn : String → String → Option (Option (List Nat) × List Nat))
       (getModule : List Nat → ApiResult (List Nat))
       (makeCall : List Nat → List Nat → String → String → List String → List String → Option (List Nat))
       (arguments type_parameters : List (List Nat)),
      encodeSubmissionRpc utf8Ascii parseFn getModule makeCall [] arguments type_parameters
        = RpcOutcome.panicked) ∧
    (∀ (parseFn : String → String → Option (Option (List Nat) × List Nat))
       (getModule : List Nat → ApiResult (List Nat))
       (makeCall : List Nat → List Nat → String → String → List String → List String → Option (List Nat))
       (arguments type_parameters : List (List Nat)),
      encodeSubmissionRpc utf8Ascii parseFn getModule makeCall [[255]] arguments type_parameters
        = RpcOutcome.panicked) ∧
    (∀ (getModule : List Nat → ApiResult (List Nat))
       (makeCall : List Nat → List Nat → String → String → List String → List String → Option (List Nat))
       (arguments type_parameters : List (List Nat)),
      encodeSubmissionRpc utf8Ascii parseFnModel getModule makeCall
        [strBytes litOops, strBytes ctxCoin, strBytes fnTransfer] arguments type_parameters
        = RpcOutcome.panicked) :=
  ⟨fun _ _ _ _ _ => rfl, fun _ _ _ _ _ => rfl, fun _ _ _ _ => rfl⟩

/-- Claim C10: get_module_abis aborts the process instead of returning an
absent or error result when the runtime has no module for the identifier,
and likewise when ABI extraction fails on the fetched bytes, for every
serializer behavior and identifier. -/
theorem get_module_abis_panics :
    (∀ (makeAbi : List Nat → Option ModuleAbi) (toJson : ModuleAbi → Option (List Nat))
       (mid : List Nat),
      getModuleAbisRpc (fun _ => ApiResult.ok none) makeAbi toJson mid = RpcOutcome.panicked) ∧
    (∀ (toJson : ModuleAbi → Option (List Nat)) (mid bs : List Nat),
      getModuleAbisRpc (fun _ => ApiResult.ok (some bs)) (fun _ => none) toJson mid
        = RpcOutcome.panicked) :=
  ⟨fun _ _ _ => rfl, fun _ _ _ => rfl⟩
